import Mathlib

/-
  Shallow embedding of the interval cubic spline core of gz-math
  (src/src/Line3_TEST.cc, second translation unit: the SplinePrivate.cc
  implementation of PolynomialPowers, ComputeCubicBernsteinHermiteCoeff
  and IntervalCubicSpline).  IEEE doubles are modelled as real numbers;
  the INF_D sentinel is modelled as the top element of WithTop.
-/

noncomputable section

namespace ignition
namespace math

/-- Modelled from the spec (section 6): the global approximate-equality
predicate `equal<T>(a, b)` of the vector/matrix collaborator library
(Helpers.hh is outside src/); an absolute-tolerance comparison with the
library's fixed default tolerance 1e-6. -/
def equal (a b : ℝ) : Prop := |a - b| ≤ 1e-6

/-- Modelled from the spec (section 6): fixed-size real vector of
dimension 3 (Vector3.hh is outside src/). -/
structure Vector3d where
  x : ℝ
  y : ℝ
  z : ℝ

namespace Vector3d

/-- The named zero constant `Vector3d::Zero`. -/
def Zero : Vector3d := ⟨0, 0, 0⟩

instance : Sub Vector3d := ⟨fun u v => ⟨u.x - v.x, u.y - v.y, u.z - v.z⟩⟩

@[simp] theorem sub_mk (a b c d e f : ℝ) :
    (⟨a, b, c⟩ - ⟨d, e, f⟩ : Vector3d) = ⟨a - d, b - e, c - f⟩ := rfl

/-- Dot product of 3-vectors. -/
def Dot (u v : Vector3d) : ℝ := u.x * v.x + u.y * v.y + u.z * v.z

/-- Cross product of 3-vectors. -/
def Cross (u v : Vector3d) : Vector3d :=
  ⟨u.y * v.z - u.z * v.y, u.z * v.x - u.x * v.z, u.x * v.y - u.y * v.x⟩

/-- Squared Euclidean length. -/
def SquaredLength (v : Vector3d) : ℝ := v.x * v.x + v.y * v.y + v.z * v.z

/-- Euclidean length. -/
def Length (v : Vector3d) : ℝ := Real.sqrt v.SquaredLength

/-- Modelled from the spec (section 6): the approximate equality
`Vector3d::operator==`, a componentwise absolute-tolerance comparison
with the library's fixed default tolerance 1e-6. -/
def eqTol (u v : Vector3d) : Prop :=
  |u.x - v.x| ≤ 1e-6 ∧ |u.y - v.y| ≤ 1e-6 ∧ |u.z - v.z| ≤ 1e-6

instance (u v : Vector3d) : Decidable (u.eqTol v) :=
  inferInstanceAs (Decidable (_ ∧ _ ∧ _))

theorem squaredLength_nonneg (v : Vector3d) : 0 ≤ v.SquaredLength := by
  unfold SquaredLength
  have hx := mul_self_nonneg v.x
  have hy := mul_self_nonneg v.y
  have hz := mul_self_nonneg v.z
  linarith

theorem length_nonneg (v : Vector3d) : 0 ≤ v.Length := Real.sqrt_nonneg _

/-- The length of a vector on the x-axis is the absolute value of its
x-component. -/
theorem length_single (q : ℝ) : Length ⟨q, 0, 0⟩ = |q| := by
  unfold Length SquaredLength
  simp only [mul_zero, add_zero]
  exact Real.sqrt_mul_self_eq_abs q

end Vector3d

instance (a b : ℝ) : Decidable (equal a b) :=
  inferInstanceAs (Decidable (|a - b| ≤ 1e-6))

/-- Modelled from the spec (section 6): fixed-size real vector of
dimension 4 (Vector4.hh is outside src/). -/
structure Vector4d where
  x : ℝ
  y : ℝ
  z : ℝ
  w : ℝ

/-- Modelled from the spec (section 6): 4x4 real matrix with construction
from 16 components, row-major (Matrix4.hh is outside src/). -/
structure Matrix4d where
  m00 : ℝ
  m01 : ℝ
  m02 : ℝ
  m03 : ℝ
  m10 : ℝ
  m11 : ℝ
  m12 : ℝ
  m13 : ℝ
  m20 : ℝ
  m21 : ℝ
  m22 : ℝ
  m23 : ℝ
  m30 : ℝ
  m31 : ℝ
  m32 : ℝ
  m33 : ℝ

namespace Matrix4d

/-- The named zero constant `Matrix4d::Zero`. -/
def Zero : Matrix4d := ⟨0, 0, 0, 0, 0, 0, 0, 0, 0, 0, 0, 0, 0, 0, 0, 0⟩

/-- Matrix product of two 4x4 matrices. -/
def mul (a b : Matrix4d) : Matrix4d :=
  ⟨a.m00 * b.m00 + a.m01 * b.m10 + a.m02 * b.m20 + a.m03 * b.m30,
   a.m00 * b.m01 + a.m01 * b.m11 + a.m02 * b.m21 + a.m03 * b.m31,
   a.m00 * b.m02 + a.m01 * b.m12 + a.m02 * b.m22 + a.m03 * b.m32,
   a.m00 * b.m03 + a.m01 * b.m13 + a.m02 * b.m23 + a.m03 * b.m33,
   a.m10 * b.m00 + a.m11 * b.m10 + a.m12 * b.m20 + a.m13 * b.m30,
   a.m10 * b.m01 + a.m11 * b.m11 + a.m12 * b.m21 + a.m13 * b.m31,
   a.m10 * b.m02 + a.m11 * b.m12 + a.m12 * b.m22 + a.m13 * b.m32,
   a.m10 * b.m03 + a.m11 * b.m13 + a.m12 * b.m23 + a.m13 * b.m33,
   a.m20 * b.m00 + a.m21 * b.m10 + a.m22 * b.m20 + a.m23 * b.m30,
   a.m20 * b.m01 + a.m21 * b.m11 + a.m22 * b.m21 + a.m23 * b.m31,
   a.m20 * b.m02 + a.m21 * b.m12 + a.m22 * b.m22 + a.m23 * b.m32,
   a.m20 * b.m03 + a.m21 * b.m13 + a.m22 * b.m23 + a.m23 * b.m33,
   a.m30 * b.m00 + a.m31 * b.m10 + a.m32 * b.m20 + a.m33 * b.m30,
   a.m30 * b.m01 + a.m31 * b.m11 + a.m32 * b.m21 + a.m33 * b.m31,
   a.m30 * b.m02 + a.m31 * b.m12 + a.m32 * b.m22 + a.m33 * b.m32,
   a.m30 * b.m03 + a.m31 * b.m13 + a.m32 * b.m23 + a.m33 * b.m33⟩

/-- The 4x4 identity matrix. -/
def identity : Matrix4d := ⟨1, 0, 0, 0, 0, 1, 0, 0, 0, 0, 1, 0, 0, 0, 0, 1⟩

end Matrix4d

/-- Row vector times matrix, the `Vector4d * Matrix4d` product used by
`DoInterpolateMthDerivative` (`powers * this->coeffs`). -/
def Vector4d.mulMat (v : Vector4d) (m : Matrix4d) : Vector4d :=
  ⟨v.x * m.m00 + v.y * m.m10 + v.z * m.m20 + v.w * m.m30,
   v.x * m.m01 + v.y * m.m11 + v.z * m.m21 + v.w * m.m31,
   v.x * m.m02 + v.y * m.m12 + v.z * m.m22 + v.w * m.m32,
   v.x * m.m03 + v.y * m.m13 + v.z * m.m23 + v.w * m.m33⟩

/-- Modelled from the spec (section 3): a `ControlPoint` holds an ordered
small set of derivatives indexed 0..3 (0 = position, 1 = tangent,
2 = acceleration, 3 = jerk), each a 3-component real vector
(SplinePrivate.hh is outside src/).  Out-of-range derivative orders read
as the zero vector, the clamp policy named in the spec's design notes. -/
structure ControlPoint where
  M0 : Vector3d
  M1 : Vector3d
  M2 : Vector3d
  M3 : Vector3d

/-- Derivative accessor by order, `ControlPoint::MthDerivative`. -/
def ControlPoint.MthDerivative (cp : ControlPoint) (m : ℕ) : Vector3d :=
  if m = 0 then cp.M0
  else if m = 1 then cp.M1
  else if m = 2 then cp.M2
  else if m = 3 then cp.M3
  else Vector3d.Zero

/-- `PolynomialPowers(order, t)`: the 4-vector of monomial-derivative
coefficients for the requested derivative order at parameter t, a fixed
lookup table (orders at least 4 give the all-zero vector). -/
def PolynomialPowers (order : ℕ) (t : ℝ) : Vector4d :=
  let t2 := t * t
  let t3 := t2 * t
  if order = 0 then ⟨t3, t2, t, 1⟩
  else if order = 1 then ⟨3 * t2, 2 * t, 1, 0⟩
  else if order = 2 then ⟨6 * t, 2, 0, 0⟩
  else if order = 3 then ⟨6, 0, 0, 0⟩
  else ⟨0, 0, 0, 0⟩

/-- `ComputeCubicBernsteinHermiteCoeff`: Hermite basis matrix times the
control vectors matrix built from the two control points' positions and
tangents, written exactly as in the source. -/
def ComputeCubicBernsteinHermiteCoeff
    (startPoint endPoint : ControlPoint) : Matrix4d :=
  let point0 := startPoint.MthDerivative 0
  let point1 := endPoint.MthDerivative 0
  let tan0 := startPoint.MthDerivative 1
  let tan1 := endPoint.MthDerivative 1
  let bmatrix : Matrix4d :=
    ⟨2, -2, 1, 1,
     -3, 3, -2, -1,
     0, 0, 1, 0,
     1, 0, 0, 0⟩
  let cmatrix : Matrix4d :=
    ⟨point0.x, point0.y, point0.z, 1,
     point1.x, point1.y, point1.z, 1,
     tan0.x, tan0.y, tan0.z, 1,
     tan1.x, tan1.y, tan1.z, 1⟩
  bmatrix.mul cmatrix

/-- The spline segment state: two endpoint control points, the power-basis
coefficient matrix and the cached total arc length. -/
structure IntervalCubicSpline where
  startPoint : ControlPoint
  endPoint : ControlPoint
  coeffs : Matrix4d
  arcLength : ℝ

/-- The default constructor `IntervalCubicSpline()`: zero control points,
zero coefficient matrix, zero cached arc length. -/
def IntervalCubicSpline.default : IntervalCubicSpline :=
  ⟨⟨Vector3d.Zero, Vector3d.Zero, Vector3d.Zero, Vector3d.Zero⟩,
   ⟨Vector3d.Zero, Vector3d.Zero, Vector3d.Zero, Vector3d.Zero⟩,
   Matrix4d.Zero, 0⟩

/-- A 3-vector whose components may carry the positive-infinity sentinel
returned for out-of-domain queries (doubles admit +inf; the real-number
model carries it in WithTop). -/
structure Vector3dExt where
  x : WithTop ℝ
  y : WithTop ℝ
  z : WithTop ℝ

/-- A finite 3-vector viewed as a sentinel-capable result. -/
def Vector3d.toExt (v : Vector3d) : Vector3dExt := ⟨(v.x : ℝ), (v.y : ℝ), (v.z : ℝ)⟩

/-- `Vector3d(INF_D, INF_D, INF_D)`: the out-of-domain sentinel vector,
all three components positive infinity. -/
def infVector3d : Vector3dExt := ⟨⊤, ⊤, ⊤⟩

namespace IntervalCubicSpline

/-- `DoInterpolateMthDerivative`: the internal unchecked evaluator,
`PolynomialPowers(mth, t) * coeffs` projected to 3 components.  It reads
only the coefficient matrix of the spline. -/
def DoInterpolateMthDerivative
    (this : IntervalCubicSpline) (mth : ℕ) (t : ℝ) : Vector3d :=
  let powers := PolynomialPowers mth t
  let interpolation := powers.mulMat this.coeffs
  ⟨interpolation.x, interpolation.y, interpolation.z⟩

/-- The in-domain value of `InterpolateMthDerivative`: cached endpoint
derivative when t is within tolerance of 0 or of 1, otherwise the
unchecked evaluator.  The public entry is this behind the bound check. -/
def InterpolateSample
    (this : IntervalCubicSpline) (mth : ℕ) (t : ℝ) : Vector3d :=
  if equal t 0 then this.startPoint.MthDerivative mth
  else if equal t 1 then this.endPoint.MthDerivative mth
  else this.DoInterpolateMthDerivative mth t

/-- `InterpolateMthDerivative`: public entry; bound check first (returning
the all-infinity sentinel), then the tolerance-cached in-domain value. -/
def InterpolateMthDerivative
    (this : IntervalCubicSpline) (mth : ℕ) (t : ℝ) : Vector3dExt :=
  if t < 0 ∨ t > 1 then infVector3d
  else (this.InterpolateSample mth t).toExt

/-- The 5-point Gauss-Legendre quadrature body of `ArcLength`, evaluated
when the bound check has passed.  The source samples the speed through the
public `InterpolateMthDerivative`; every abscissa lies in [0, 1] whenever
0 <= t <= 1 (see `interpolate_eq_sample_of_inbounds`), so each sample is
the in-domain value `InterpolateSample`. -/
def ArcLengthQuad (this : IntervalCubicSpline) (t : ℝ) : ℝ :=
  let w1 := 0.28444444444444444 * t
  let w23 := 0.23931433524968326 * t
  let w45 := 0.11846344252809456 * t
  let x1 := 0.5 * t
  let x2 := 0.23076534494715845 * t
  let x3 := 0.7692346550528415 * t
  let x4 := 0.0469100770306680 * t
  let x5 := 0.9530899229693319 * t
  w1 * (this.InterpolateSample 1 x1).Length
    + w23 * (this.InterpolateSample 1 x2).Length
    + w23 * (this.InterpolateSample 1 x3).Length
    + w45 * (this.InterpolateSample 1 x4).Length
    + w45 * (this.InterpolateSample 1 x5).Length

/-- `ArcLength(t)`: positive infinity outside [0, 1], otherwise the
5-point Gauss-Legendre quadrature of the speed over [0, t]. -/
def ArcLength (this : IntervalCubicSpline) (t : ℝ) : WithTop ℝ :=
  if t < 0 ∨ t > 1 then ⊤ else ((this.ArcLengthQuad t : ℝ) : WithTop ℝ)

/-- `SetPoints(start, end)`: copy the two control points, compute the
coefficient matrix, write the derived 2nd and 3rd endpoint derivatives,
then cache `ArcLength(1.0)` (in-domain, hence the quadrature value). -/
def SetPoints (this : IntervalCubicSpline)
    (startPoint endPoint : ControlPoint) : IntervalCubicSpline :=
  let coeffs := ComputeCubicBernsteinHermiteCoeff startPoint endPoint
  let assigned : IntervalCubicSpline :=
    ⟨startPoint, endPoint, coeffs, this.arcLength⟩
  let sp : ControlPoint :=
    { startPoint with
      M2 := assigned.DoInterpolateMthDerivative 2 0,
      M3 := assigned.DoInterpolateMthDerivative 3 0 }
  let ep : ControlPoint :=
    { endPoint with
      M2 := assigned.DoInterpolateMthDerivative 2 1,
      M3 := assigned.DoInterpolateMthDerivative 3 1 }
  let updated : IntervalCubicSpline := ⟨sp, ep, coeffs, this.arcLength⟩
  ⟨sp, ep, coeffs, updated.ArcLengthQuad 1⟩

/-- The Bezier Bernstein polynomial basis matrix built in `HasLoop`. -/
def bezierBasis : Matrix4d :=
  ⟨-1, 3, -3, 1,
   3, -6, 3, 0,
   -3, 3, 0, 0,
   1, 0, 0, 0⟩

/-- Modelled from the spec (design note, section 9): `Matrix4d::Inverse()`
applied to the fixed Bezier basis matrix (Matrix4.hh is outside src/); the
inverse of a fixed known-invertible matrix, hard-coded as the spec
permits.  `bezierBasis_mul_inv` and `bezierBasisInv_mul` check it. -/
def bezierBasisInv : Matrix4d :=
  ⟨0, 0, 0, 1,
   0, 0, 1/3, 1,
   0, 1/3, 2/3, 1,
   1, 1, 1, 1⟩

/-- `pmatrix = bmatrix.Inverse() * this->coeffs`: the recovered Bezier
representation of the spline. -/
def pmatrix (this : IntervalCubicSpline) : Matrix4d :=
  bezierBasisInv.mul this.coeffs

/-- First recovered Bezier control point (row 0 of `pmatrix`). -/
def p1 (this : IntervalCubicSpline) : Vector3d :=
  ⟨this.pmatrix.m00, this.pmatrix.m01, this.pmatrix.m02⟩

/-- Second recovered Bezier control point (row 1 of `pmatrix`). -/
def p2 (this : IntervalCubicSpline) : Vector3d :=
  ⟨this.pmatrix.m10, this.pmatrix.m11, this.pmatrix.m12⟩

/-- Third recovered Bezier control point (row 2 of `pmatrix`). -/
def p3 (this : IntervalCubicSpline) : Vector3d :=
  ⟨this.pmatrix.m20, this.pmatrix.m21, this.pmatrix.m22⟩

/-- Fourth recovered Bezier control point (row 3 of `pmatrix`). -/
def p4 (this : IntervalCubicSpline) : Vector3d :=
  ⟨this.pmatrix.m30, this.pmatrix.m31, this.pmatrix.m32⟩

/-- Chord edge vector `a = p4 - p1` of `HasLoop`. -/
def a (this : IntervalCubicSpline) : Vector3d := this.p4 - this.p1

/-- First tangent leg `b = p2 - p1` of `HasLoop`. -/
def b (this : IntervalCubicSpline) : Vector3d := this.p2 - this.p1

/-- Second tangent leg `c = p3 - p4` of `HasLoop`. -/
def c (this : IntervalCubicSpline) : Vector3d := this.p3 - this.p4

/-- Cross product `a x c` of `HasLoop`. -/
def axc (this : IntervalCubicSpline) : Vector3d := this.a.Cross this.c

/-- Cross product `b x c` of `HasLoop`. -/
def bxc (this : IntervalCubicSpline) : Vector3d := this.b.Cross this.c

/-- Cross product `a x b` of `HasLoop`. -/
def axb (this : IntervalCubicSpline) : Vector3d := this.a.Cross this.b

/-- Collinear-case inner vector `d = p3 - p1` of `HasLoop`. -/
def d (this : IntervalCubicSpline) : Vector3d := this.p3 - this.p1

/-- `HasLoop()`: the conservative self-intersection classifier, branch for
branch as in the source: degenerate case on `b x c` toleranced-zero
(parallel tangents report no loop, else the collinear overtake length
test), the non-coplanar conservative `true`, and the coplanar projection
scale-factor tests accumulated by disjunction. -/
def HasLoop (this : IntervalCubicSpline) : Prop :=
  if this.bxc.eqTol Vector3d.Zero then
    if ¬ this.axb.eqTol Vector3d.Zero then False
    else this.d.Length < this.b.Length
  else if ¬ equal (this.a.Dot this.bxc) 0 then True
  else
    (¬ this.axc.eqTol Vector3d.Zero ∧
       |this.axc.Dot this.bxc / this.bxc.SquaredLength| < 1) ∨
    (¬ this.axb.eqTol Vector3d.Zero ∧
       |this.axb.Dot this.bxc / this.bxc.SquaredLength| < 1)

end IntervalCubicSpline

/-- The fixed Bezier basis matrix times its hard-coded inverse is the
identity, anchoring the modelled `Matrix4d::Inverse()` result. -/
theorem bezierBasis_mul_inv :
    IntervalCubicSpline.bezierBasis.mul IntervalCubicSpline.bezierBasisInv =
      Matrix4d.identity := by
  norm_num [IntervalCubicSpline.bezierBasis, IntervalCubicSpline.bezierBasisInv,
    Matrix4d.mul, Matrix4d.identity]

/-- The hard-coded inverse times the fixed Bezier basis matrix is the
identity. -/
theorem bezierBasisInv_mul :
    IntervalCubicSpline.bezierBasisInv.mul IntervalCubicSpline.bezierBasis =
      Matrix4d.identity := by
  norm_num [IntervalCubicSpline.bezierBasis, IntervalCubicSpline.bezierBasisInv,
    Matrix4d.mul, Matrix4d.identity]

/-- Inside [0, 1] the public interpolation entry is the in-domain value. -/
theorem interpolate_eq_sample_of_inbounds (s : IntervalCubicSpline)
    (mth : ℕ) (t : ℝ) (h0 : 0 ≤ t) (h1 : t ≤ 1) :
    s.InterpolateMthDerivative mth t = (s.InterpolateSample mth t).toExt := by
  unfold IntervalCubicSpline.InterpolateMthDerivative
  rw [if_neg]
  rintro (h | h)
  · exact absurd h0 (not_le.mpr h)
  · exact absurd h1 (not_le.mpr h)

/-- A vector that fails the toleranced comparison with the zero vector has
strictly positive squared length. -/
theorem Vector3d.squaredLength_pos_of_not_eqTol_zero (v : Vector3d)
    (h : ¬ v.eqTol Vector3d.Zero) : 0 < v.SquaredLength := by
  rcases lt_or_eq_of_le (Vector3d.squaredLength_nonneg v) with hlt | heq
  · exact hlt
  · exfalso
    apply h
    have hsum : v.x * v.x + v.y * v.y + v.z * v.z = 0 := by
      unfold Vector3d.SquaredLength at heq
      linarith
    have hx : v.x = 0 := mul_self_eq_zero.mp (le_antisymm
      (by nlinarith [mul_self_nonneg v.y, mul_self_nonneg v.z]) (mul_self_nonneg v.x))
    have hy : v.y = 0 := mul_self_eq_zero.mp (le_antisymm
      (by nlinarith [mul_self_nonneg v.x, mul_self_nonneg v.z]) (mul_self_nonneg v.y))
    have hz : v.z = 0 := mul_self_eq_zero.mp (le_antisymm
      (by nlinarith [mul_self_nonneg v.x, mul_self_nonneg v.y]) (mul_self_nonneg v.z))
    unfold Vector3d.eqTol Vector3d.Zero
    rw [hx, hy, hz]
    norm_num

/-- The last field of the spline state (the cached arc length) does not
feed the quadrature, so it may be replaced freely. -/
theorem arcLengthQuad_cache_irrelevant (sp ep : ControlPoint) (c : Matrix4d)
    (x y t : ℝ) :
    IntervalCubicSpline.ArcLengthQuad ⟨sp, ep, c, x⟩ t =
      IntervalCubicSpline.ArcLengthQuad ⟨sp, ep, c, y⟩ t := rfl

/-- `SetPoints` overwrites every field of the spline, so its result does
not depend on the prior state. -/
theorem setPoints_ignores_state (s s' : IntervalCubicSpline)
    (p q : ControlPoint) : s.SetPoints p q = s'.SetPoints p q := rfl

/-- C1: for every spline whose recovered Bezier edge vectors are coplanar
(`a.(b x c)` approximately zero) and non-degenerate (`b x c` not the
toleranced zero vector), `HasLoop` holds if and only if `a x c` is
non-zero with projection scale factor `|(a x c).(b x c)| / |b x c|^2`
under 1, or `a x b` is non-zero with scale factor
`|(a x b).(b x c)| / |b x c|^2` under 1; it is false when neither
disjunct holds. -/
theorem claim_C1_hasLoop_coplanar_classification (s : IntervalCubicSpline)
    (hbc : ¬ s.bxc.eqTol Vector3d.Zero)
    (hcop : equal (s.a.Dot s.bxc) 0) :
    s.HasLoop ↔
      ((¬ s.axc.eqTol Vector3d.Zero ∧
          |s.axc.Dot s.bxc| / s.bxc.SquaredLength < 1) ∨
       (¬ s.axb.eqTol Vector3d.Zero ∧
          |s.axb.Dot s.bxc| / s.bxc.SquaredLength < 1)) := by
  unfold IntervalCubicSpline.HasLoop
  rw [if_neg hbc, if_neg (not_not_intro hcop)]
  simp only [abs_div, abs_of_nonneg (Vector3d.squaredLength_nonneg s.bxc)]

/-- C2: for every spline with `b x c` the toleranced zero vector,
`HasLoop` is false when `a x b` is non-zero, and in the all-collinear
case holds exactly when the distance from `p1` to `p3` is strictly less
than the length of `b`. -/
theorem claim_C2_hasLoop_degenerate_collinear (s : IntervalCubicSpline)
    (hbc : s.bxc.eqTol Vector3d.Zero) :
    (¬ s.axb.eqTol Vector3d.Zero → ¬ s.HasLoop) ∧
    (s.axb.eqTol Vector3d.Zero →
      (s.HasLoop ↔ (s.p3 - s.p1).Length < s.b.Length)) := by
  unfold IntervalCubicSpline.HasLoop
  rw [if_pos hbc]
  constructor
  · intro h
    rw [if_pos h]
    exact not_false
  · intro h
    rw [if_neg (not_not_intro h)]
    exact Iff.rfl

/-- C3: for every spline with `b x c` non-zero and scalar triple product
`a.(b x c)` not approximately zero (non-coplanar control points),
`HasLoop` holds unconditionally. -/
theorem claim_C3_hasLoop_noncoplanar_conservative (s : IntervalCubicSpline)
    (hbc : ¬ s.bxc.eqTol Vector3d.Zero)
    (hnc : ¬ equal (s.a.Dot s.bxc) 0) : s.HasLoop := by
  unfold IntervalCubicSpline.HasLoop
  rw [if_neg hbc, if_pos hnc]
  trivial

/-- C5: for every derivative order and every parameter outside [0, 1]
(including values within the boundary tolerance, since the bound check
runs first), `InterpolateMthDerivative` returns the all-infinity vector
and `ArcLength` returns scalar positive infinity. -/
theorem claim_C5_out_of_domain_sentinel (s : IntervalCubicSpline)
    (mth : ℕ) (t : ℝ) (h : t < 0 ∨ t > 1) :
    s.InterpolateMthDerivative mth t = infVector3d ∧ s.ArcLength t = ⊤ := by
  constructor
  · unfold IntervalCubicSpline.InterpolateMthDerivative
    rw [if_pos h]
  · unfold IntervalCubicSpline.ArcLength
    rw [if_pos h]

/-- C6: after `SetPoints(start, end)`, position queries at t = 0 and
t = 1 return the supplied endpoint positions exactly, and first-derivative
queries there return the supplied tangents exactly, through the cached
endpoint branch. -/
theorem claim_C6_boundary_queries_exact (s : IntervalCubicSpline)
    (p q : ControlPoint) :
    (s.SetPoints p q).InterpolateMthDerivative 0 0 = (p.MthDerivative 0).toExt ∧
    (s.SetPoints p q).InterpolateMthDerivative 0 1 = (q.MthDerivative 0).toExt ∧
    (s.SetPoints p q).InterpolateMthDerivative 1 0 = (p.MthDerivative 1).toExt ∧
    (s.SetPoints p q).InterpolateMthDerivative 1 1 = (q.MthDerivative 1).toExt := by
  have h0 : ¬((0:ℝ) < 0 ∨ (0:ℝ) > 1) := by norm_num
  have h1 : ¬((1:ℝ) < 0 ∨ (1:ℝ) > 1) := by norm_num
  have he00 : equal (0:ℝ) 0 := by unfold equal; norm_num
  have hne10 : ¬ equal (1:ℝ) 0 := by unfold equal; norm_num
  have he11 : equal (1:ℝ) 1 := by unfold equal; norm_num
  refine ⟨?_, ?_, ?_, ?_⟩
  · unfold IntervalCubicSpline.InterpolateMthDerivative
      IntervalCubicSpline.InterpolateSample
    rw [if_neg h0, if_pos he00]
    rfl
  · unfold IntervalCubicSpline.InterpolateMthDerivative
      IntervalCubicSpline.InterpolateSample
    rw [if_neg h1, if_neg hne10, if_pos he11]
    rfl
  · unfold IntervalCubicSpline.InterpolateMthDerivative
      IntervalCubicSpline.InterpolateSample
    rw [if_neg h0, if_pos he00]
    rfl
  · unfold IntervalCubicSpline.InterpolateMthDerivative
      IntervalCubicSpline.InterpolateSample
    rw [if_neg h1, if_neg hne10, if_pos he11]
    rfl

/-- C7: after any `SetPoints` call, a subsequent `ArcLength(1.0)` query
returns exactly the cached total-arc-length field. -/
theorem claim_C7_cached_total_arc_length (s : IntervalCubicSpline)
    (p q : ControlPoint) :
    (s.SetPoints p q).ArcLength 1 =
      (((s.SetPoints p q).arcLength : ℝ) : WithTop ℝ) := by
  unfold IntervalCubicSpline.ArcLength
  rw [if_neg (by norm_num : ¬((1:ℝ) < 0 ∨ (1:ℝ) > 1))]
  rfl

/-- The Hermite basis matrix exactly as the spec lists it (section 4.1). -/
def hermiteBasisSpec : Matrix4d :=
  ⟨2, -2, 1, 1,
   -3, 3, -2, -1,
   0, 0, 1, 0,
   1, 0, 0, 0⟩

/-- The control vectors matrix exactly as the spec describes it: rows
`[start position, 1]`, `[end position, 1]`, `[start tangent, 1]`,
`[end tangent, 1]`. -/
def controlVectorsSpec (startPoint endPoint : ControlPoint) : Matrix4d :=
  ⟨startPoint.M0.x, startPoint.M0.y, startPoint.M0.z, 1,
   endPoint.M0.x, endPoint.M0.y, endPoint.M0.z, 1,
   startPoint.M1.x, startPoint.M1.y, startPoint.M1.z, 1,
   endPoint.M1.x, endPoint.M1.y, endPoint.M1.z, 1⟩

/-- C8: `ComputeCubicBernsteinHermiteCoeff` produces exactly the matrix
product of the fixed Hermite basis matrix with the homogeneous control
vectors matrix, for all (finite) inputs. -/
theorem claim_C8_coeff_is_hermite_product (p q : ControlPoint) :
    ComputeCubicBernsteinHermiteCoeff p q =
      hermiteBasisSpec.mul (controlVectorsSpec p q) := rfl

/-- C9: running `SetPoints` twice leaves exactly the state of a fresh
default-constructed spline given only the second pair of points; every
subsequent derivative, arc-length and loop query agrees. -/
theorem claim_C9_setPoints_full_replacement (s : IntervalCubicSpline)
    (r0 s0 p q : ControlPoint) :
    (∀ mth t, ((s.SetPoints r0 s0).SetPoints p q).InterpolateMthDerivative mth t =
        (IntervalCubicSpline.default.SetPoints p q).InterpolateMthDerivative mth t) ∧
    (∀ t, ((s.SetPoints r0 s0).SetPoints p q).ArcLength t =
        (IntervalCubicSpline.default.SetPoints p q).ArcLength t) ∧
    (((s.SetPoints r0 s0).SetPoints p q).HasLoop ↔
        (IntervalCubicSpline.default.SetPoints p q).HasLoop) := by
  rw [setPoints_ignores_state (s.SetPoints r0 s0) IntervalCubicSpline.default p q]
  exact ⟨fun _ _ => rfl, fun _ => rfl, Iff.rfl⟩

/-- C10: whenever the guard `b x c` not-toleranced-zero that protects both
divisions by `|b x c|^2` in `HasLoop` holds, that divisor is strictly
positive, so no executed division divides by zero. -/
theorem claim_C10_division_guard_positive (s : IntervalCubicSpline)
    (h : ¬ s.bxc.eqTol Vector3d.Zero) : 0 < s.bxc.SquaredLength :=
  Vector3d.squaredLength_pos_of_not_eqTol_zero s.bxc h

/-- C4 (amended): arc length after `SetPoints` is zero at parameter 0 and
bounded below by that value on all of [0, 1]; this is the monotonicity
claim restricted to comparisons against the left endpoint (the full
two-point monotonicity fails, see the counterexample). -/
theorem claim_C4_amended_arcLength_lower_bound (s : IntervalCubicSpline)
    (p q : ControlPoint) (t : ℝ) (h0 : 0 ≤ t) (h1 : t ≤ 1) :
    (s.SetPoints p q).ArcLength 0 = ((0 : ℝ) : WithTop ℝ) ∧
    (s.SetPoints p q).ArcLength 0 ≤ (s.SetPoints p q).ArcLength t := by
  have hq0 : ∀ st : IntervalCubicSpline, st.ArcLengthQuad 0 = 0 := by
    intro st
    simp only [IntervalCubicSpline.ArcLengthQuad]
    norm_num
  have hqn : 0 ≤ (s.SetPoints p q).ArcLengthQuad t := by
    simp only [IntervalCubicSpline.ArcLengthQuad]
    refine add_nonneg (add_nonneg (add_nonneg (add_nonneg ?_ ?_) ?_) ?_) ?_ <;>
      exact mul_nonneg (mul_nonneg (by norm_num) h0) (Vector3d.length_nonneg _)
  constructor
  · unfold IntervalCubicSpline.ArcLength
    rw [if_neg (by norm_num : ¬((0:ℝ) < 0 ∨ (0:ℝ) > 1)), hq0]
  · unfold IntervalCubicSpline.ArcLength
    rw [if_neg (by norm_num : ¬((0:ℝ) < 0 ∨ (0:ℝ) > 1)),
      if_neg (by rintro (h | h) <;> linarith : ¬(t < 0 ∨ t > 1)), hq0]
    exact WithTop.coe_le_coe.mpr hqn

/-- The length of a nonpositive x-axis vector is the negated component. -/
theorem Vector3d.length_single_nonpos (q : ℝ) (h : q ≤ 0) :
    Vector3d.Length ⟨q, 0, 0⟩ = -q := by
  rw [Vector3d.length_single, abs_of_nonpos h]

/-- The length of a nonnegative x-axis vector is the component itself. -/
theorem Vector3d.length_single_nonneg (q : ℝ) (h : 0 ≤ q) :
    Vector3d.Length ⟨q, 0, 0⟩ = q := by
  rw [Vector3d.length_single, abs_of_nonneg h]

/-- A planar S-shaped segment: endpoints on the x-axis with oblique
tangents, giving coplanar, non-collinear recovered Bezier points. -/
def loopTestStart : ControlPoint := ⟨⟨0, 0, 0⟩, ⟨1, 1, 0⟩, Vector3d.Zero, Vector3d.Zero⟩

/-- End control point of the planar test segment. -/
def loopTestEnd : ControlPoint := ⟨⟨1, 0, 0⟩, ⟨1, -1, 0⟩, Vector3d.Zero, Vector3d.Zero⟩

/-- The planar test spline fitted through the two points above. -/
def coplanarSpline : IntervalCubicSpline :=
  IntervalCubicSpline.default.SetPoints loopTestStart loopTestEnd

/-- Witness for C1: the planar test spline has toleranced-nonzero
`b x c`, approximately zero triple product, and the classification holds
there. -/
theorem claim_C1_witness :
    (¬ coplanarSpline.bxc.eqTol Vector3d.Zero ∧
      equal (coplanarSpline.a.Dot coplanarSpline.bxc) 0) ∧
    (coplanarSpline.HasLoop ↔
      ((¬ coplanarSpline.axc.eqTol Vector3d.Zero ∧
          |coplanarSpline.axc.Dot coplanarSpline.bxc| /
            coplanarSpline.bxc.SquaredLength < 1) ∨
       (¬ coplanarSpline.axb.eqTol Vector3d.Zero ∧
          |coplanarSpline.axb.Dot coplanarSpline.bxc| /
            coplanarSpline.bxc.SquaredLength < 1))) := by
  have hbc : ¬ coplanarSpline.bxc.eqTol Vector3d.Zero := by
    norm_num [coplanarSpline, loopTestStart, loopTestEnd,
      IntervalCubicSpline.SetPoints, ComputeCubicBernsteinHermiteCoeff,
      ControlPoint.MthDerivative, Matrix4d.mul,
      IntervalCubicSpline.bxc, IntervalCubicSpline.b, IntervalCubicSpline.c,
      IntervalCubicSpline.p1, IntervalCubicSpline.p2, IntervalCubicSpline.p3,
      IntervalCubicSpline.p4, IntervalCubicSpline.pmatrix,
      IntervalCubicSpline.bezierBasisInv, Vector3d.Cross, Vector3d.eqTol,
      Vector3d.Zero, abs_le, lt_abs]
  have hcop : equal (coplanarSpline.a.Dot coplanarSpline.bxc) 0 := by
    norm_num [coplanarSpline, loopTestStart, loopTestEnd,
      IntervalCubicSpline.SetPoints, ComputeCubicBernsteinHermiteCoeff,
      ControlPoint.MthDerivative, Matrix4d.mul,
      IntervalCubicSpline.bxc, IntervalCubicSpline.a, IntervalCubicSpline.b,
      IntervalCubicSpline.c,
      IntervalCubicSpline.p1, IntervalCubicSpline.p2, IntervalCubicSpline.p3,
      IntervalCubicSpline.p4, IntervalCubicSpline.pmatrix,
      IntervalCubicSpline.bezierBasisInv, Vector3d.Cross, Vector3d.Dot,
      Vector3d.Zero, equal, abs_le, lt_abs]
  exact ⟨⟨hbc, hcop⟩,
    claim_C1_hasLoop_coplanar_classification coplanarSpline hbc hcop⟩

/-- A fully collinear segment on the x-axis whose inner Bezier point `p3`
is pushed past `p2`, the overtake configuration. -/
def collinearStart : ControlPoint := ⟨⟨0, 0, 0⟩, ⟨3, 0, 0⟩, Vector3d.Zero, Vector3d.Zero⟩

/-- End control point of the collinear test segment. -/
def collinearEnd : ControlPoint :=
  ⟨⟨2, 0, 0⟩, ⟨15/2, 0, 0⟩, Vector3d.Zero, Vector3d.Zero⟩

/-- The collinear test spline fitted through the two points above. -/
def collinearSpline : IntervalCubicSpline :=
  IntervalCubicSpline.default.SetPoints collinearStart collinearEnd

/-- Witness for C2: the collinear test spline falls into the degenerate
`b x c = 0` case and the collinear classification applies. -/
theorem claim_C2_witness :
    collinearSpline.bxc.eqTol Vector3d.Zero ∧
    (collinearSpline.axb.eqTol Vector3d.Zero →
      (collinearSpline.HasLoop ↔
        (collinearSpline.p3 - collinearSpline.p1).Length <
          collinearSpline.b.Length)) := by
  have hbc : collinearSpline.bxc.eqTol Vector3d.Zero := by
    norm_num [collinearSpline, collinearStart, collinearEnd,
      IntervalCubicSpline.SetPoints, ComputeCubicBernsteinHermiteCoeff,
      ControlPoint.MthDerivative, Matrix4d.mul,
      IntervalCubicSpline.bxc, IntervalCubicSpline.b, IntervalCubicSpline.c,
      IntervalCubicSpline.p1, IntervalCubicSpline.p2, IntervalCubicSpline.p3,
      IntervalCubicSpline.p4, IntervalCubicSpline.pmatrix,
      IntervalCubicSpline.bezierBasisInv, Vector3d.Cross, Vector3d.eqTol,
      Vector3d.Zero, abs_le]
  exact ⟨hbc, fun h =>
    (claim_C2_hasLoop_degenerate_collinear collinearSpline hbc).2 h⟩

/-- A skew segment whose tangents leave the chord plane, giving
non-coplanar recovered Bezier points. -/
def skewStart : ControlPoint := ⟨⟨0, 0, 0⟩, ⟨0, 3, 3⟩, Vector3d.Zero, Vector3d.Zero⟩

/-- End control point of the skew test segment. -/
def skewEnd : ControlPoint := ⟨⟨1, 0, 0⟩, ⟨0, 3, -3⟩, Vector3d.Zero, Vector3d.Zero⟩

/-- The skew test spline fitted through the two points above. -/
def skewSpline : IntervalCubicSpline :=
  IntervalCubicSpline.default.SetPoints skewStart skewEnd

/-- Witness for C3: the skew test spline has nonzero `b x c` and a
triple product far from zero, and `HasLoop` holds. -/
theorem claim_C3_witness :
    (¬ skewSpline.bxc.eqTol Vector3d.Zero ∧
      ¬ equal (skewSpline.a.Dot skewSpline.bxc) 0) ∧ skewSpline.HasLoop := by
  have hbc : ¬ skewSpline.bxc.eqTol Vector3d.Zero := by
    norm_num [skewSpline, skewStart, skewEnd,
      IntervalCubicSpline.SetPoints, ComputeCubicBernsteinHermiteCoeff,
      ControlPoint.MthDerivative, Matrix4d.mul,
      IntervalCubicSpline.bxc, IntervalCubicSpline.b, IntervalCubicSpline.c,
      IntervalCubicSpline.p1, IntervalCubicSpline.p2, IntervalCubicSpline.p3,
      IntervalCubicSpline.p4, IntervalCubicSpline.pmatrix,
      IntervalCubicSpline.bezierBasisInv, Vector3d.Cross, Vector3d.eqTol,
      Vector3d.Zero, abs_le, lt_abs]
  have hnc : ¬ equal (skewSpline.a.Dot skewSpline.bxc) 0 := by
    norm_num [skewSpline, skewStart, skewEnd,
      IntervalCubicSpline.SetPoints, ComputeCubicBernsteinHermiteCoeff,
      ControlPoint.MthDerivative, Matrix4d.mul,
      IntervalCubicSpline.bxc, IntervalCubicSpline.a, IntervalCubicSpline.b,
      IntervalCubicSpline.c,
      IntervalCubicSpline.p1, IntervalCubicSpline.p2, IntervalCubicSpline.p3,
      IntervalCubicSpline.p4, IntervalCubicSpline.pmatrix,
      IntervalCubicSpline.bezierBasisInv, Vector3d.Cross, Vector3d.Dot,
      Vector3d.Zero, equal, abs_le, lt_abs]
  exact ⟨⟨hbc, hnc⟩,
    claim_C3_hasLoop_noncoplanar_conservative skewSpline hbc hnc⟩

/-- Witness for C5: the out-of-domain parameter -1e-9 (inside the
boundary-equality tolerance of 0) yields both infinity sentinels on the
default spline. -/
theorem claim_C5_witness :
    ((-1/1000000000 : ℝ) < 0 ∨ (-1/1000000000 : ℝ) > 1) ∧
    (IntervalCubicSpline.default.InterpolateMthDerivative 0
        (-1/1000000000) = infVector3d ∧
      IntervalCubicSpline.default.ArcLength (-1/1000000000) = ⊤) :=
  ⟨Or.inl (by norm_num),
    claim_C5_out_of_domain_sentinel IntervalCubicSpline.default 0
      (-1/1000000000) (Or.inl (by norm_num))⟩

/-- A planar corner segment with perpendicular tangent legs, exercising
the division-guarded branch of `HasLoop`. -/
def cornerStart : ControlPoint := ⟨⟨0, 0, 0⟩, ⟨0, 6, 0⟩, Vector3d.Zero, Vector3d.Zero⟩

/-- End control point of the corner test segment. -/
def cornerEnd : ControlPoint := ⟨⟨1, 0, 0⟩, ⟨6, 0, 0⟩, Vector3d.Zero, Vector3d.Zero⟩

/-- The corner test spline fitted through the two points above. -/
def cornerSpline : IntervalCubicSpline :=
  IntervalCubicSpline.default.SetPoints cornerStart cornerEnd

/-- Witness for C10: the corner test spline passes the `b x c` guard and
its squared length, the divisor, is strictly positive there. -/
theorem claim_C10_witness :
    (¬ cornerSpline.bxc.eqTol Vector3d.Zero) ∧
    0 < cornerSpline.bxc.SquaredLength := by
  have hbc : ¬ cornerSpline.bxc.eqTol Vector3d.Zero := by
    norm_num [cornerSpline, cornerStart, cornerEnd,
      IntervalCubicSpline.SetPoints, ComputeCubicBernsteinHermiteCoeff,
      ControlPoint.MthDerivative, Matrix4d.mul,
      IntervalCubicSpline.bxc, IntervalCubicSpline.b, IntervalCubicSpline.c,
      IntervalCubicSpline.p1, IntervalCubicSpline.p2, IntervalCubicSpline.p3,
      IntervalCubicSpline.p4, IntervalCubicSpline.pmatrix,
      IntervalCubicSpline.bezierBasisInv, Vector3d.Cross, Vector3d.eqTol,
      Vector3d.Zero, abs_le, lt_abs]
  exact ⟨hbc, claim_C10_division_guard_positive cornerSpline hbc⟩

/-- Witness for the amended C4 at t = 1 on the planar test spline. -/
theorem claim_C4_amended_witness :
    ((0:ℝ) ≤ 1 ∧ (1:ℝ) ≤ 1) ∧
    ((IntervalCubicSpline.default.SetPoints loopTestStart
        loopTestEnd).ArcLength 0 = ((0 : ℝ) : WithTop ℝ) ∧
      (IntervalCubicSpline.default.SetPoints loopTestStart
        loopTestEnd).ArcLength 0 ≤
        (IntervalCubicSpline.default.SetPoints loopTestStart
          loopTestEnd).ArcLength 1) :=
  ⟨⟨by norm_num, le_refl 1⟩,
    claim_C4_amended_arcLength_lower_bound IntervalCubicSpline.default
      loopTestStart loopTestEnd 1 (by norm_num) (le_refl 1)⟩

/-- Start of a segment whose speed collapses from 1 to 0 within the first
1e-6 of the parameter: position 0, tangent (1,0,0). -/
def steepStart : ControlPoint := ⟨⟨0, 0, 0⟩, ⟨1, 0, 0⟩, Vector3d.Zero, Vector3d.Zero⟩

/-- End of the steep segment, chosen so the velocity polynomial is exactly
(1 - 1000000 t, 0, 0). -/
def steepEnd : ControlPoint :=
  ⟨⟨-499999, 0, 0⟩, ⟨-999999, 0, 0⟩, Vector3d.Zero, Vector3d.Zero⟩

/-- The steep spline: x(t) = t - 500000 t^2, speed |1 - 1000000 t|. -/
def steepSpline : IntervalCubicSpline :=
  IntervalCubicSpline.default.SetPoints steepStart steepEnd

/-- On the steep spline a first-derivative sample away from the boundary
tolerance windows evaluates the velocity polynomial. -/
theorem steep_sample (x : ℝ) (h0 : ¬ equal x 0) (h1 : ¬ equal x 1) :
    steepSpline.InterpolateSample 1 x = ⟨1 - 1000000 * x, 0, 0⟩ := by
  unfold IntervalCubicSpline.InterpolateSample
  rw [if_neg h0, if_neg h1]
  unfold IntervalCubicSpline.DoInterpolateMthDerivative
  norm_num [steepSpline, steepStart, steepEnd,
    IntervalCubicSpline.SetPoints, ComputeCubicBernsteinHermiteCoeff,
    ControlPoint.MthDerivative, Matrix4d.mul, Vector4d.mulMat,
    PolynomialPowers]
  ring

/-- On the steep spline a first-derivative sample inside the tolerance
window of 0 snaps to the cached start tangent (1,0,0). -/
theorem steep_snap (x : ℝ) (h : equal x 0) :
    steepSpline.InterpolateSample 1 x = ⟨1, 0, 0⟩ := by
  unfold IntervalCubicSpline.InterpolateSample
  rw [if_pos h]
  norm_num [steepSpline, steepStart, steepEnd,
    IntervalCubicSpline.SetPoints, ControlPoint.MthDerivative]

/-- The quadrature value of the steep spline drops between t = 2.13e-5 and
t = 2.14e-5: the smallest abscissa leaves the tolerance window of 0, so
its sampled speed falls from the cached 1 to about 0.0039. -/
theorem steep_quad_lt :
    steepSpline.ArcLengthQuad 0.0000214 <
      steepSpline.ArcLengthQuad 0.0000213 := by
  simp only [IntervalCubicSpline.ArcLengthQuad]
  rw [steep_sample (0.5 * 0.0000214) (by norm_num [equal, abs_le])
        (by norm_num [equal, abs_le]),
      steep_sample (0.23076534494715845 * 0.0000214) (by norm_num [equal, abs_le])
        (by norm_num [equal, abs_le]),
      steep_sample (0.7692346550528415 * 0.0000214) (by norm_num [equal, abs_le])
        (by norm_num [equal, abs_le]),
      steep_sample (0.0469100770306680 * 0.0000214) (by norm_num [equal, abs_le])
        (by norm_num [equal, abs_le]),
      steep_sample (0.9530899229693319 * 0.0000214) (by norm_num [equal, abs_le])
        (by norm_num [equal, abs_le]),
      steep_sample (0.5 * 0.0000213) (by norm_num [equal, abs_le])
        (by norm_num [equal, abs_le]),
      steep_sample (0.23076534494715845 * 0.0000213) (by norm_num [equal, abs_le])
        (by norm_num [equal, abs_le]),
      steep_sample (0.7692346550528415 * 0.0000213) (by norm_num [equal, abs_le])
        (by norm_num [equal, abs_le]),
      steep_snap (0.0469100770306680 * 0.0000213) (by norm_num [equal, abs_le]),
      steep_sample (0.9530899229693319 * 0.0000213) (by norm_num [equal, abs_le])
        (by norm_num [equal, abs_le])]
  simp (disch := norm_num) only [Vector3d.length_single_nonpos]
  simp (disch := norm_num) only [Vector3d.length_single_nonneg]
  norm_num

/-- Counterexample to C4 as stated: on the steep spline (built by
`SetPoints`) with 0 <= t1 = 2.13e-5 < t2 = 2.14e-5 <= 1, `ArcLength(t2)`
is strictly below `ArcLength(t1)`, refuting monotonicity. -/
theorem claim_C4_counterexample :
    ((0:ℝ) ≤ 0.0000213 ∧ (0.0000213 : ℝ) < 0.0000214 ∧
      (0.0000214 : ℝ) ≤ 1) ∧
    ¬ (steepSpline.ArcLength 0.0000214 ≥ steepSpline.ArcLength 0.0000213) := by
  refine ⟨by norm_num, ?_⟩
  unfold IntervalCubicSpline.ArcLength
  rw [if_neg (by norm_num : ¬((0.0000214:ℝ) < 0 ∨ (0.0000214:ℝ) > 1)),
      if_neg (by norm_num : ¬((0.0000213:ℝ) < 0 ∨ (0.0000213:ℝ) > 1))]
  rw [ge_iff_le, not_le]
  exact WithTop.coe_lt_coe.mpr steep_quad_lt

end math
end ignition
